import Mathlib

/-!
Verification of the response-dispatch and endpoint-construction layer of the
`tyria-rs` client library (a typed client for the Guild Wars 2 REST API).

The embedding below translates the relevant Rust source files:

* `src/util.rs`      — parameter encoders (`number_to_param`, `numbers_to_param`,
  `string_to_param`, `strings_to_param`) and the generic response dispatcher
  `parse_response`;
* `src/client.rs`    — `APIClient` and the two request builders
  (`make_request`, `make_authenticated_request`);
* `src/api_v2/achievements.rs` — the hand-coded dispatch of `get_achievement`;
* `src/api_v2/core.rs`         — `get_masteries` (batch endpoint, valid set
  `{200, 206}`);
* `src/api_v2/characters.rs`   — the `/v2/characters/{name}` endpoint template.

External collaborators are modelled at their interface boundary, as the
source consumes them:

* the HTTP transport is a function from a URL to a completed `Response`
  (status code as a `Nat`, body as a `Json` value);
* serde's JSON layer is a small `Json` inductive plus decoders that mirror
  the `#[derive(Deserialize)]` semantics of the structs involved (required
  fields fail when absent or ill-typed; `#[serde(default)]` fields fall back
  to `Default::default()` when absent);
* a Rust `panic!`/`.unwrap()`-on-`Err`/`.expect()` is made explicit as a
  dedicated `panicked` constructor of the result type, since several claims
  are about whether the code can crash.

Machine integers (`i32`) are modelled as `Int`; none of the verified code
paths perform arithmetic, so overflow is not a concern here.
-/

namespace Tyria

/-! ## JSON values (serialization boundary) -/

/-- A JSON value, the shape of a response body as seen by serde. -/
inductive Json where
  | null
  | bool (b : Bool)
  | num (n : Int)
  | str (s : String)
  | arr (elems : List Json)
  | obj (fields : List (String × Json))

/-- Look up a field of a JSON object by key (serde takes the field value
by name). -/
def findField (key : String) : List (String × Json) → Option Json
  | [] => none
  | (k, v) :: rest => if k == key then some v else findField key rest

/-- Decode a required `String` field: fails when the field is absent or not
a JSON string (serde: missing or ill-typed required field is an error). -/
def decodeStrField (fields : List (String × Json)) (key : String) :
    Option String :=
  match findField key fields with
  | some (Json.str s) => some s
  | _ => none

/-- Decode a required `i32` field. -/
def decodeIntField (fields : List (String × Json)) (key : String) :
    Option Int :=
  match findField key fields with
  | some (Json.num n) => some n
  | _ => none

/-- Decode a `#[serde(default)]` `String` field: an absent field yields
`String::default()` (the empty string); a present but ill-typed field is
still an error. -/
def decodeStrFieldD (fields : List (String × Json)) (key : String) :
    Option String :=
  match findField key fields with
  | none => some ""
  | some (Json.str s) => some s
  | some _ => none

/-- Decode a `#[serde(default)]` `i32` field (absent yields `0`). -/
def decodeIntFieldD (fields : List (String × Json)) (key : String) :
    Option Int :=
  match findField key fields with
  | none => some 0
  | some (Json.num n) => some n
  | some _ => none

/-- Decode every element of a JSON array with the given element decoder,
failing if any element fails (serde semantics for `Vec<T>`). -/
def decodeEach {T : Type} (dec : Json → Option T) : List Json → Option (List T)
  | [] => some []
  | j :: rest =>
    match dec j, decodeEach dec rest with
    | some v, some vs => some (v :: vs)
    | _, _ => none

/-- Decode a required `Vec<T>` field. -/
def decodeListField {T : Type} (dec : Json → Option T)
    (fields : List (String × Json)) (key : String) : Option (List T) :=
  match findField key fields with
  | some (Json.arr elems) => decodeEach dec elems
  | _ => none

/-- Decode a `#[serde(default)]` `Vec<T>` field (absent yields `vec![]`). -/
def decodeListFieldD {T : Type} (dec : Json → Option T)
    (fields : List (String × Json)) (key : String) : Option (List T) :=
  match findField key fields with
  | none => some []
  | some (Json.arr elems) => decodeEach dec elems
  | some _ => none

/-! ## `src/types.rs`: `APIError` -/

/-- `APIError` (src/types.rs lines 30-34): the structured error body
returned by the remote API, a single human-readable `text` field. -/
structure APIError where
  text : String
deriving DecidableEq

/-- `APIError::new` (src/types.rs lines 37-43). -/
def APIError.new (text : String) : APIError := ⟨text⟩

/-- The serde-derived deserializer for `APIError`: an object with a string
field `text`. -/
def decodeAPIError : Json → Option APIError
  | Json.obj fields =>
    match decodeStrField fields "text" with
    | some s => some ⟨s⟩
    | none => none
  | _ => none

/-! ## `src/util.rs`: parameter encoders -/

/-- `number_to_param` (src/util.rs lines 43-52): `param`, then `"="`, then
the decimal form of `value`. -/
def number_to_param (param : String) (value : Int) : String :=
  param ++ "=" ++ toString value

/-- `numbers_to_param` (src/util.rs lines 69-83): starts from `param ++ "="`
and, for each value in order, appends its decimal form followed by `","`
(the source's loop pushes the separator after every element, the last one
included). -/
def numbers_to_param (param : String) (values : List Int) : String :=
  values.foldl (fun result val => result ++ toString val ++ ",") (param ++ "=")

/-- `string_to_param` (src/util.rs lines 99-108). -/
def string_to_param (param : String) (value : String) : String :=
  param ++ "=" ++ value

/-- `strings_to_param` (src/util.rs lines 124-137): same loop shape as
`numbers_to_param`, appending `","` after every element. -/
def strings_to_param (param : String) (values : List String) : String :=
  values.foldl (fun result val => result ++ val ++ ",") (param ++ "=")

/-! ## `src/util.rs`: `parse_response` -/

/-- A completed HTTP response as the dispatcher sees it: a status code and
a body. -/
structure Response where
  status : Nat
  body : Json

/-- Outcome of a dispatch: `Ok(value)`, `Err(api_error)`, or a Rust panic
(the source calls `.unwrap()` on serde results, which panics when
deserialization fails). -/
inductive DispatchOutcome (T : Type) where
  | ok (value : T)
  | err (error : APIError)
  | panicked (message : String)

/-- The panic message of `Result::unwrap` on an `Err` (serde error). -/
def unwrapErrMsg : String := "called Result::unwrap() on an Err value"

/-- `parse_response` (src/util.rs lines 149-164), parameterized by the
serde deserializer `decode` for the success type `T`:

* status in `valid`   → `Ok(response.json::<T>().unwrap())`;
* else status in `invalid` → `Err(response.json::<APIError>().unwrap())`;
* else → `Err(APIError::new("unknown status code: {status}"))`.

The Rust `format!` displays the status code starting with its decimal
number; the embedding renders exactly that number. -/
def parse_response {T : Type} (decode : Json → Option T)
    (response : Response) (valid invalid : List Nat) : DispatchOutcome T :=
  if valid.contains response.status then
    match decode response.body with
    | some value => DispatchOutcome.ok value
    | none => DispatchOutcome.panicked unwrapErrMsg
  else if invalid.contains response.status then
    match decodeAPIError response.body with
    | some apiErr => DispatchOutcome.err apiErr
    | none => DispatchOutcome.panicked unwrapErrMsg
  else
    DispatchOutcome.err
      (APIError.new ("unknown status code: " ++ toString response.status))

/-! ## Substring containment (for "message contains the status code") -/

/-- `beginsWith needle l`: `needle` is an initial run of `l`. -/
def beginsWith {α : Type} [DecidableEq α] : List α → List α → Bool
  | [], _ => true
  | _ :: _, [] => false
  | a :: as, b :: bs => decide (a = b) && beginsWith as bs

/-- `hasRun needle l`: `needle` occurs contiguously somewhere in `l`. -/
def hasRun {α : Type} [DecidableEq α] (needle : List α) : List α → Bool
  | [] => beginsWith needle []
  | b :: bs => beginsWith needle (b :: bs) || hasRun needle bs

/-- `strMentions haystack needle`: `needle` occurs as a contiguous
substring of `haystack`. -/
def strMentions (haystack needle : String) : Bool :=
  hasRun needle.data haystack.data

/-- Split a character list on a separator character, keeping empty groups
(the observation used by the spec's round-trip property: splitting the
rendered parameter value on `','`). -/
def splitOnChar (sep : Char) : List Char → List (List Char)
  | [] => [[]]
  | c :: rest =>
    let groups := splitOnChar sep rest
    if c = sep then [] :: groups
    else
      match groups with
      | [] => [[c]]
      | g :: gs => (c :: g) :: gs

/-! ## `src/client.rs`: `APIClient` and request builders -/

/-- The request URL macro `get_request_url!` (src/client.rs lines 27-29):
prepends the fixed origin. -/
def get_request_url (endpoint : String) : String :=
  "https://api.guildwars2.com" ++ endpoint

/-- `APIClient` (src/client.rs lines 32-39): locale and optional bearer
token; the inner `reqwest::Client` is the external transport and carries no
state relevant here. -/
structure APIClient where
  lang : String
  token : Option String

/-- An outgoing HTTP GET request: full URL plus the headers set by the
client (header order in `reqwest::Headers` is irrelevant; the list records
exactly which headers are set and to what value). -/
structure Request where
  url : String
  headers : List (String × String)

/-- Result of building an authenticated request:
`make_authenticated_request` calls `.expect("token is not configured")` on
the optional token, so it either produces a request or panics before any
request is issued. -/
inductive AuthRequestResult where
  | request (req : Request)
  | panicked (message : String)

/-- `make_request` (src/client.rs lines 95-111): sets only the
`Accept-Language` header, whose language tag is the session's locale. -/
def make_request (client : APIClient) (url : String) : Request :=
  { url := get_request_url url
    headers := [("Accept-Language", client.lang)] }

/-- `make_authenticated_request` (src/client.rs lines 64-88): panics via
`.expect("token is not configured")` when no token is set; otherwise sets
`Authorization: Bearer <token>` and `Accept-Language: <locale>`. The
`.expect` runs while the headers are being built, before
`self.client.get(..).send()` issues the request. -/
def make_authenticated_request (client : APIClient) (url : String) :
    AuthRequestResult :=
  match client.token with
  | none => AuthRequestResult.panicked "token is not configured"
  | some token =>
    AuthRequestResult.request
      { url := get_request_url url
        headers := [("Authorization", "Bearer " ++ token),
                    ("Accept-Language", client.lang)] }

/-! ## `src/types.rs`: the `Achievement` DTO and its serde deserializer -/

/-- `AchievementTier` (src/types.rs lines 269-275). -/
structure AchievementTier where
  count : Int
  points : Int

/-- `AchievementReward` (src/types.rs lines 249-263); `kind` is the Rust
field renamed from JSON key `"type"`. -/
structure AchievementReward where
  kind : String
  id : Int
  count : Int
  region : String

/-- `AchievementBit` (src/types.rs lines 194-205). -/
structure AchievementBit where
  kind : String
  id : Int
  text : String

/-- `Achievement` (src/types.rs lines 157-191). -/
structure Achievement where
  id : Int
  icon : String
  name : String
  description : String
  requirement : String
  locked_text : String
  kind : String
  flags : List String
  tiers : List AchievementTier
  prerequisites : List Int
  rewards : List AchievementReward
  bits : List AchievementBit
  point_cap : Int

/-- Serde deserializer for `AchievementTier` (both fields required). -/
def decodeAchievementTier : Json → Option AchievementTier
  | Json.obj fields => do
    let count ← decodeIntField fields "count"
    let points ← decodeIntField fields "points"
    pure ⟨count, points⟩
  | _ => none

/-- Serde deserializer for `AchievementReward` (`type` required; `id`,
`count`, `region` default). -/
def decodeAchievementReward : Json → Option AchievementReward
  | Json.obj fields => do
    let kind ← decodeStrField fields "type"
    let id ← decodeIntFieldD fields "id"
    let count ← decodeIntFieldD fields "count"
    let region ← decodeStrFieldD fields "region"
    pure ⟨kind, id, count, region⟩
  | _ => none

/-- Serde deserializer for `AchievementBit` (`type` required; `id`, `text`
default). -/
def decodeAchievementBit : Json → Option AchievementBit
  | Json.obj fields => do
    let kind ← decodeStrField fields "type"
    let id ← decodeIntFieldD fields "id"
    let text ← decodeStrFieldD fields "text"
    pure ⟨kind, id, text⟩
  | _ => none

/-- Serde deserializer for `Achievement`, mirroring the field attributes of
src/types.rs: `icon`, `prerequisites`, `rewards`, `bits`, `point_cap` carry
`#[serde(default)]`; `kind` is renamed from `"type"`; the rest are
required. -/
def decodeAchievement : Json → Option Achievement
  | Json.obj fields => do
    let id ← decodeIntField fields "id"
    let icon ← decodeStrFieldD fields "icon"
    let name ← decodeStrField fields "name"
    let description ← decodeStrField fields "description"
    let requirement ← decodeStrField fields "requirement"
    let locked_text ← decodeStrField fields "locked_text"
    let kind ← decodeStrField fields "type"
    let flags ← decodeListField (fun j => match j with
      | Json.str s => some s
      | _ => none) fields "flags"
    let tiers ← decodeListField decodeAchievementTier fields "tiers"
    let prerequisites ← decodeListFieldD (fun j => match j with
      | Json.num n => some n
      | _ => none) fields "prerequisites"
    let rewards ← decodeListFieldD decodeAchievementReward fields "rewards"
    let bits ← decodeListFieldD decodeAchievementBit fields "bits"
    let point_cap ← decodeIntFieldD fields "point_cap"
    pure ⟨id, icon, name, description, requirement, locked_text, kind,
          flags, tiers, prerequisites, rewards, bits, point_cap⟩
  | _ => none

/-! ## `src/api_v2/achievements.rs`: `get_achievement` -/

/-- The endpoint macro arm `("achievements_id", $id)` of
src/api_v2/achievements.rs line 45: `format!("/v2/achievements?{}", $id)`. -/
def achievements_id_endpoint (id : String) : String :=
  "/v2/achievements?" ++ id

/-- `get_achievement` (src/api_v2/achievements.rs lines 106-122). The
transport (`client.make_request(..).expect(..)`) is abstracted as a
function from the request path to the completed response; the dispatch is
the source's hand-written status check:

* `200` → `Ok(response.json::<Achievement>().unwrap())`;
* `404` → `Err(response.json::<APIError>().unwrap())`;
* otherwise → `Err(APIError::new("unknown status code"))` — note the
  hand-written fallback message carries no status number, unlike
  `parse_response`. -/
def get_achievement (transport : String → Response) (id : Int) :
    DispatchOutcome Achievement :=
  let param := number_to_param "id" id
  let response := transport (achievements_id_endpoint param)
  if response.status == 200 then
    match decodeAchievement response.body with
    | some a => DispatchOutcome.ok a
    | none => DispatchOutcome.panicked unwrapErrMsg
  else if response.status == 404 then
    match decodeAPIError response.body with
    | some e => DispatchOutcome.err e
    | none => DispatchOutcome.panicked unwrapErrMsg
  else
    DispatchOutcome.err (APIError.new "unknown status code")

/-! ## `src/api_v2/types.rs`: the `Mastery` DTO and its deserializer -/

/-- `MasteryLevel` (src/api_v2/types.rs lines 748-762, all fields
required). -/
structure MasteryLevel where
  name : String
  description : String
  instruction : String
  icon : String
  point_cost : Int
  exp_cost : Int

/-- `Mastery` (src/api_v2/types.rs lines 729-744, all fields required). -/
structure Mastery where
  id : Int
  name : String
  requirement : String
  order : Int
  background : String
  region : String
  levels : List MasteryLevel

/-- Serde deserializer for `MasteryLevel`. -/
def decodeMasteryLevel : Json → Option MasteryLevel
  | Json.obj fields => do
    let name ← decodeStrField fields "name"
    let description ← decodeStrField fields "description"
    let instruction ← decodeStrField fields "instruction"
    let icon ← decodeStrField fields "icon"
    let point_cost ← decodeIntField fields "point_cost"
    let exp_cost ← decodeIntField fields "exp_cost"
    pure ⟨name, description, instruction, icon, point_cost, exp_cost⟩
  | _ => none

/-- Serde deserializer for `Mastery`. -/
def decodeMastery : Json → Option Mastery
  | Json.obj fields => do
    let id ← decodeIntField fields "id"
    let name ← decodeStrField fields "name"
    let requirement ← decodeStrField fields "requirement"
    let order ← decodeIntField fields "order"
    let background ← decodeStrField fields "background"
    let region ← decodeStrField fields "region"
    let levels ← decodeListField decodeMasteryLevel fields "levels"
    pure ⟨id, name, requirement, order, background, region, levels⟩
  | _ => none

/-- Serde deserializer for `Vec<Mastery>`. -/
def decodeMasteries : Json → Option (List Mastery)
  | Json.arr elems => decodeEach decodeMastery elems
  | _ => none

/-! ## `src/api_v2/core.rs`: `get_masteries` -/

/-- The endpoint macro arm `("masteries_id", $id)` of
src/api_v2/core.rs line 51: `format!("/v2/masteries?{}", $id)`. -/
def masteries_id_endpoint (id : String) : String :=
  "/v2/masteries?" ++ id

/-- `get_masteries` (src/api_v2/core.rs lines 112-126): encodes the IDs
with `numbers_to_param("ids", &ids)`, performs the GET, and dispatches via
`parse_response` with `valid = [Ok, PartialContent] = [200, 206]` and
`invalid = [NotFound] = [404]`. -/
def get_masteries (transport : String → Response) (ids : List Int) :
    DispatchOutcome (List Mastery) :=
  let param := numbers_to_param "ids" ids
  let response := transport (masteries_id_endpoint param)
  parse_response decodeMasteries response [200, 206] [404]

/-! ## `src/api_v2/characters.rs`: the `/v2/characters/{name}` template -/

/-- The endpoint macro arm `("character", $id)` of
src/api_v2/characters.rs line 50: `format!("/v2/characters/{}", $id)`. -/
def characters_character_endpoint (id : String) : String :=
  "/v2/characters/" ++ id

/-- The request-building stage of `get_character`
(src/api_v2/characters.rs lines 74-87): the name is substituted into the
path template and the result passed to `make_authenticated_request`; the
source applies no encoding (the `//TODO percent-encode character names` at
line 64 is unresolved in the source). -/
def get_character_request (client : APIClient) (name : String) :
    AuthRequestResult :=
  make_authenticated_request client (characters_character_endpoint name)

/-! ## Supporting lemmas -/

theorem beginsWith_append {α : Type} [DecidableEq α] (l t : List α) :
    beginsWith l (l ++ t) = true := by
  induction l with
  | nil => rfl
  | cons a as ih => simp [beginsWith, ih]

theorem hasRun_append {α : Type} [DecidableEq α] (s needle t : List α) :
    hasRun needle (s ++ needle ++ t) = true := by
  induction s with
  | nil =>
    rw [List.nil_append]
    cases h : needle ++ t with
    | nil =>
      rcases List.append_eq_nil.mp h with ⟨h1, h2⟩
      subst h1; subst h2
      rfl
    | cons b bs =>
      show (beginsWith needle (b :: bs) || hasRun needle bs) = true
      rw [← h, beginsWith_append, Bool.true_or]
  | cons c cs ih =>
    show (beginsWith needle (c :: (cs ++ needle ++ t))
          || hasRun needle (cs ++ needle ++ t)) = true
    rw [ih, Bool.or_true]

theorem string_data_append (a b : String) :
    (a ++ b).data = a.data ++ b.data := rfl

theorem strMentions_append (a b : String) :
    strMentions (a ++ b) b = true := by
  have h : (a ++ b).data = a.data ++ b.data ++ [] := by
    simp [string_data_append]
  unfold strMentions
  rw [h]
  exact hasRun_append a.data b.data []

/-! ## Claims -/

/-- C1: the claim states that `numbers_to_param("ids", vs)` renders `ids=`
followed by the elements joined by single commas with **no trailing
separator**. The source's loop appends a `","` after every element, the
last one included, so the rendered string ends in a trailing comma (and
splitting the part after `=` on `,` yields a trailing empty element). This
theorem evaluates the source behaviour at the failing input
`("ids", [1,2,3])` (and the string analogue): the spec itself records the
trailing separator as a defect of this implementation, so the code, not
the claim, is wrong. -/
theorem numbers_to_param_trailing_separator_eval :
    numbers_to_param "ids" [1, 2, 3] = "ids=1,2,3," ∧
    strings_to_param "ids" ["a", "b", "c"] = "ids=a,b,c," ∧
    splitOnChar ',' "1,2,3,".data = [['1'], ['2'], ['3'], []] := by
  refine ⟨by decide, by decide, by decide⟩

/-- C10: on the empty list, both `numbers_to_param` and `strings_to_param`
return exactly the parameter name followed by `=`, with no values and no
comma (the loop body never runs); neither encoder imposes a non-emptiness
check — both are total and this equation is their value at `[]`. -/
theorem params_on_empty_list (param : String) :
    numbers_to_param param [] = param ++ "=" ∧
    strings_to_param param [] = param ++ "=" :=
  ⟨rfl, rfl⟩

/-- C2 counterexample: the claim asserts that *every* endpoint operation
reports an undeclared status with an error message containing the numeric
status code. The hand-written dispatcher of `get_achievement`
(src/api_v2/achievements.rs line 121) returns the fixed message
`"unknown status code"` — at status 500 the message does not mention
`"500"` anywhere. -/
theorem get_achievement_unknown_status_lacks_code :
    get_achievement (fun _ => ⟨500, Json.null⟩) 42 =
      DispatchOutcome.err (APIError.new "unknown status code") ∧
    strMentions "unknown status code" "500" = false :=
  ⟨rfl, by decide⟩

/-- C2 (amended): operations dispatching through `parse_response` report an
undeclared status with an error whose message contains the decimal status
code, without parsing the body (the result is a function of the status
alone); the hand-written achievements dispatcher also returns an error
without parsing the body, but its fixed message `"unknown status code"`
omits the numeric code. -/
theorem unknown_status_error_messages :
    (∀ {T : Type} (decode : Json → Option T) (r : Response)
       (valid invalid : List Nat),
       r.status ∉ valid → r.status ∉ invalid →
       parse_response decode r valid invalid =
         DispatchOutcome.err
           (APIError.new ("unknown status code: " ++ toString r.status)) ∧
       strMentions ("unknown status code: " ++ toString r.status)
         (toString r.status) = true) ∧
    (∀ (transport : String → Response) (id : Int),
       (transport (achievements_id_endpoint
          (number_to_param "id" id))).status ≠ 200 →
       (transport (achievements_id_endpoint
          (number_to_param "id" id))).status ≠ 404 →
       get_achievement transport id =
         DispatchOutcome.err (APIError.new "unknown status code")) := by
  constructor
  · intro T decode r valid invalid h1 h2
    refine ⟨?_, strMentions_append "unknown status code: " (toString r.status)⟩
    simp [parse_response, h1, h2]
  · intro transport id h200 h404
    simp [get_achievement, h200, h404]

/-- C2 witness: the amended theorem applied to a 500 response dispatched
through `parse_response` with sets `{200}` / `{404}`, and to a 503 response
hitting `get_achievement`. -/
theorem unknown_status_error_messages_witness :
    (parse_response decodeAPIError ⟨500, Json.null⟩ [200] [404] =
       DispatchOutcome.err (APIError.new "unknown status code: 500") ∧
     strMentions "unknown status code: 500" "500" = true) ∧
    get_achievement (fun _ => ⟨503, Json.null⟩) 7 =
      DispatchOutcome.err (APIError.new "unknown status code") := by
  constructor
  · exact unknown_status_error_messages.1 decodeAPIError
      ⟨500, Json.null⟩ [200] [404] (by decide) (by decide)
  · exact unknown_status_error_messages.2 (fun _ => ⟨503, Json.null⟩) 7
      (by decide) (by decide)

/-- C3 counterexample: the claim asserts that a response whose status is in
the declared invalid set never makes the dispatcher crash, *regardless of
the body*. `parse_response` calls `.unwrap()` on
`response.json::<APIError>()` (src/util.rs line 158): on a 404 whose body
is not a structured error record (here the bare string `"oops"`), the
unwrap panics. Evaluated through `get_masteries`, whose invalid set is
`{404}`. -/
theorem get_masteries_panics_on_malformed_error_body :
    get_masteries (fun _ => ⟨404, Json.str "oops"⟩) [1, 2] =
      DispatchOutcome.panicked unwrapErrMsg := rfl

/-- C3 (amended): for a response whose status is in the invalid set (and
not in the valid set), the dispatcher returns the deserialized structured
error as a recoverable typed value whenever the body deserializes as the
error record; when the body does not, the `.unwrap()` call panics instead
of returning. -/
theorem invalid_status_typed_error {T : Type} (decode : Json → Option T)
    (r : Response) (valid invalid : List Nat)
    (hv : r.status ∉ valid)
    (hi : r.status ∈ invalid) :
    (∀ e : APIError, decodeAPIError r.body = some e →
       parse_response decode r valid invalid = DispatchOutcome.err e) ∧
    (decodeAPIError r.body = none →
       parse_response decode r valid invalid =
         DispatchOutcome.panicked unwrapErrMsg) := by
  constructor
  · intro e he
    simp [parse_response, hv, hi, he]
  · intro hnone
    simp [parse_response, hv, hi, hnone]

/-- C3 witness: the amended theorem applied to a 404 with a well-formed
error body and to a 404 with a malformed one, with the sets of
`get_masteries`. -/
theorem invalid_status_typed_error_witness :
    parse_response decodeMasteries ⟨404, Json.obj [("text", Json.str "no")]⟩
      [200, 206] [404] = DispatchOutcome.err (APIError.new "no") ∧
    parse_response decodeMasteries ⟨404, Json.null⟩ [200, 206] [404] =
      DispatchOutcome.panicked unwrapErrMsg := by
  constructor
  · exact (invalid_status_typed_error decodeMasteries
      ⟨404, Json.obj [("text", Json.str "no")]⟩ [200, 206] [404]
      (by decide) (by decide)).1 (APIError.new "no") rfl
  · exact (invalid_status_typed_error decodeMasteries
      ⟨404, Json.null⟩ [200, 206] [404] (by decide) (by decide)).2 rfl

/-- C4: `parse_response` classifies by a strict ordered algorithm: a status
in the valid set triggers success-type deserialization of the body (the
first conjunct holds with no condition on the invalid set, so for a status
in both sets the valid branch takes precedence); otherwise a status in the
invalid set triggers deserialization as the structured error record;
otherwise the unknown-status error is produced. -/
theorem parse_response_ordered_dispatch {T : Type}
    (decode : Json → Option T) (r : Response) (valid invalid : List Nat) :
    (r.status ∈ valid →
       parse_response decode r valid invalid =
         (match decode r.body with
          | some v => DispatchOutcome.ok v
          | none => DispatchOutcome.panicked unwrapErrMsg)) ∧
    (r.status ∉ valid → r.status ∈ invalid →
       parse_response decode r valid invalid =
         (match decodeAPIError r.body with
          | some e => DispatchOutcome.err e
          | none => DispatchOutcome.panicked unwrapErrMsg)) ∧
    (r.status ∉ valid → r.status ∉ invalid →
       parse_response decode r valid invalid =
         DispatchOutcome.err
           (APIError.new ("unknown status code: " ++ toString r.status))) := by
  refine ⟨fun hv => ?_, fun hv hi => ?_, fun hv hi => ?_⟩
  · simp [parse_response, hv]
  · simp [parse_response, hv, hi]
  · simp [parse_response, hv, hi]

/-- C4 witness: the three branches at concrete inputs, including a status
(`200`) lying in **both** sets, where the valid branch wins. -/
theorem parse_response_ordered_dispatch_witness :
    parse_response decodeAPIError ⟨200, Json.obj [("text", Json.str "hi")]⟩
      [200] [200, 404] = DispatchOutcome.ok (APIError.new "hi") ∧
    parse_response decodeAPIError ⟨404, Json.obj [("text", Json.str "no")]⟩
      [200] [200, 404] = DispatchOutcome.err (APIError.new "no") ∧
    parse_response decodeAPIError ⟨500, Json.null⟩ [200] [200, 404] =
      DispatchOutcome.err (APIError.new "unknown status code: 500") := by
  refine ⟨?_, ?_, ?_⟩
  · exact (parse_response_ordered_dispatch decodeAPIError
      ⟨200, Json.obj [("text", Json.str "hi")]⟩ [200] [200, 404]).1
      (by decide)
  · exact (parse_response_ordered_dispatch decodeAPIError
      ⟨404, Json.obj [("text", Json.str "no")]⟩ [200] [200, 404]).2.1
      (by decide) (by decide)
  · exact (parse_response_ordered_dispatch decodeAPIError
      ⟨500, Json.null⟩ [200] [200, 404]).2.2 (by decide) (by decide)

/-- C5: `get_masteries` declares the valid set `{200, 206}` and dispatches
both statuses through the same `parse_response` call: any response to the
batch URL whose status is 200 or 206 and whose body deserializes as a
mastery array yields a success outcome carrying that array. -/
theorem get_masteries_partial_content_success (transport : String → Response)
    (ids : List Int) (ms : List Mastery)
    (hstatus :
      (transport (masteries_id_endpoint (numbers_to_param "ids" ids))).status
        = 200 ∨
      (transport (masteries_id_endpoint (numbers_to_param "ids" ids))).status
        = 206)
    (hbody : decodeMasteries
      (transport (masteries_id_endpoint (numbers_to_param "ids" ids))).body
        = some ms) :
    get_masteries transport ids = DispatchOutcome.ok ms := by
  unfold get_masteries
  rcases hstatus with h | h <;>
    · have hv : (transport (masteries_id_endpoint
          (numbers_to_param "ids" ids))).status ∈ [200, 206] := by
        rw [h]; decide
      simp [parse_response, hv, hbody]

/-- C5 witness: a 206 partial-array response and a 200 full-array response
to the same batch endpoint both yield success; the 200 case carries a
fully populated mastery record, the 206 case a partial (empty) batch. -/
theorem get_masteries_partial_content_success_witness :
    get_masteries (fun _ => ⟨206, Json.arr []⟩) [1, 2, 3] =
      DispatchOutcome.ok [] ∧
    get_masteries (fun _ => ⟨200, Json.arr [Json.obj [
        ("id", Json.num 1), ("name", Json.str "Exalted Lore"),
        ("requirement", Json.str "r"), ("order", Json.num 2),
        ("background", Json.str "b"), ("region", Json.str "Maguuma"),
        ("levels", Json.arr [])]]⟩) [1] =
      DispatchOutcome.ok [⟨1, "Exalted Lore", "r", 2, "b", "Maguuma", []⟩] := by
  constructor
  · exact get_masteries_partial_content_success _ [1, 2, 3] []
      (Or.inr rfl) rfl
  · exact get_masteries_partial_content_success _ [1]
      [⟨1, "Exalted Lore", "r", 2, "b", "Maguuma", []⟩] (Or.inl rfl) rfl

/-- C6: `get_achievement` declares 404 in its invalid set; a 404 response
whose body is `{"text": msg}` yields the documented-error outcome and the
error's message field equals exactly `msg`. -/
theorem get_achievement_not_found_message (transport : String → Response)
    (id : Int) (msg : String)
    (hstatus : (transport (achievements_id_endpoint
      (number_to_param "id" id))).status = 404)
    (hbody : (transport (achievements_id_endpoint
      (number_to_param "id" id))).body = Json.obj [("text", Json.str msg)]) :
    get_achievement transport id = DispatchOutcome.err ⟨msg⟩ := by
  unfold get_achievement
  simp [hstatus, hbody, decodeAPIError, decodeStrField, findField]

/-- C6 witness: `get_achievement(id := 42)` against a transport returning
404 with `{"text": "achievement not found"}` yields a documented error
with exactly that message (and likewise for the spec's `"not found"`
body). -/
theorem get_achievement_not_found_message_witness :
    get_achievement
      (fun _ => ⟨404, Json.obj [("text", Json.str "achievement not found")]⟩)
      42 = DispatchOutcome.err ⟨"achievement not found"⟩ ∧
    get_achievement (fun _ => ⟨404, Json.obj [("text", Json.str "not found")]⟩)
      7 = DispatchOutcome.err ⟨"not found"⟩ := by
  constructor
  · exact get_achievement_not_found_message _ 42 "achievement not found"
      rfl rfl
  · exact get_achievement_not_found_message _ 7 "not found" rfl rfl

/-- C7: every request carries an `Accept-Language` header whose value is
the session's locale; an `Authorization: Bearer <token>` header is present
exactly on the authenticated path — the unauthenticated builder sets only
the `Accept-Language` header, while the authenticated builder (when the
token is configured) sets exactly `Authorization` and `Accept-Language`. -/
theorem request_header_conventions (client : APIClient) (url : String) :
    (make_request client url).headers = [("Accept-Language", client.lang)] ∧
    (∀ t, client.token = some t →
       ∃ req, make_authenticated_request client url =
           AuthRequestResult.request req ∧
         req.headers = [("Authorization", "Bearer " ++ t),
                        ("Accept-Language", client.lang)]) := by
  refine ⟨rfl, fun t ht => ?_⟩
  unfold make_authenticated_request
  rw [ht]
  exact ⟨_, rfl, rfl⟩

/-- C7 witness: the conventions at a concrete session (`lang = "en"`,
`token = Some "abc"`). -/
theorem request_header_conventions_witness :
    (make_request ⟨"en", some "abc"⟩ "/v2/account").headers =
      [("Accept-Language", "en")] ∧
    ∃ req, make_authenticated_request ⟨"en", some "abc"⟩ "/v2/account" =
        AuthRequestResult.request req ∧
      req.headers = [("Authorization", "Bearer abc"),
                     ("Accept-Language", "en")] := by
  have h := request_header_conventions ⟨"en", some "abc"⟩ "/v2/account"
  exact ⟨h.1, h.2 "abc" rfl⟩

/-- C8: the `/v2/characters/{name}` template resolves by substituting the
parameter verbatim: for every string the resolved path is exactly the
template followed by the name, with no percent-encoding or other
transformation, and the URL issued by `get_character`'s request stage is
the fixed origin concatenated with that path. -/
theorem character_path_verbatim_substitution (name : String)
    (client : APIClient) (t : String) (ht : client.token = some t) :
    characters_character_endpoint name = "/v2/characters/" ++ name ∧
    ∃ req, get_character_request client name =
        AuthRequestResult.request req ∧
      req.url = "https://api.guildwars2.com" ++ ("/v2/characters/" ++ name) := by
  refine ⟨rfl, ?_⟩
  unfold get_character_request make_authenticated_request
  rw [ht]
  exact ⟨_, rfl, rfl⟩

/-- C8 witness: a name containing reserved URL characters passes through
untouched. -/
theorem character_path_verbatim_substitution_witness :
    characters_character_endpoint "Foo Bar&?#" = "/v2/characters/Foo Bar&?#" ∧
    ∃ req, get_character_request ⟨"en", some "tok"⟩ "Foo Bar&?#" =
        AuthRequestResult.request req ∧
      req.url = "https://api.guildwars2.com/v2/characters/Foo Bar&?#" := by
  have h := character_path_verbatim_substitution "Foo Bar&?#"
    ⟨"en", some "tok"⟩ "tok" rfl
  exact ⟨h.1, h.2⟩

/-- C9: on a client constructed without a token,
`make_authenticated_request` panics with the message
`"token is not configured"` and produces no request (the panic fires while
headers are built, before any request is issued); when a token is
configured the panic branch is unreachable and the `Authorization` header
value is `"Bearer "` followed by that token. -/
theorem authenticated_request_token_behavior (client : APIClient)
    (url : String) :
    (client.token = none →
       make_authenticated_request client url =
         AuthRequestResult.panicked "token is not configured") ∧
    (∀ t, client.token = some t →
       ∃ req, make_authenticated_request client url =
           AuthRequestResult.request req ∧
         List.lookup "Authorization" req.headers = some ("Bearer " ++ t)) := by
  constructor
  · intro hn
    unfold make_authenticated_request
    rw [hn]
  · intro t ht
    unfold make_authenticated_request
    rw [ht]
    exact ⟨_, rfl, rfl⟩

/-- C9 witness: both branches at concrete clients. -/
theorem authenticated_request_token_behavior_witness :
    make_authenticated_request ⟨"en", none⟩ "/v2/account" =
      AuthRequestResult.panicked "token is not configured" ∧
    ∃ req, make_authenticated_request ⟨"en", some "abc"⟩ "/v2/account" =
        AuthRequestResult.request req ∧
      List.lookup "Authorization" req.headers = some "Bearer abc" := by
  constructor
  · exact (authenticated_request_token_behavior ⟨"en", none⟩ "/v2/account").1
      rfl
  · exact (authenticated_request_token_behavior ⟨"en", some "abc"⟩
      "/v2/account").2 "abc" rfl

end Tyria
